import Mathlib

/-!
Verification of the AI news digest dashboard (`src/app/page.tsx`).

The development shallowly embeds the logic of the page component:
`saveToHistory`, the `fetchNews` controller (its branching, status message and
history writes), `formatNextRun`, the settings load/save performed by
`SettingsModal`, and, modelled from the specification because its source lives
in the missing `@/lib/scheduler` module, `cronToHuman`.

JavaScript conventions used throughout the embedding:
* `Date.now()` is a caller-supplied `Nat` (epoch milliseconds); its JS
  `toString()` is `Nat.repr`.
* a JS string tested for truthiness is falsy exactly when it is `""`, so
  `x || d` on strings is `strOr`;
* an optional value that a JS expression tests for truthiness is an `Option`,
  `none` standing for `undefined`/`null`/any other falsy value.
-/

namespace NewsBot

/-- `Story` interface of `page.tsx`. -/
structure Story where
  headline : String
  summary : String
  source : String
  deriving DecidableEq

/-- `Category` interface of `page.tsx`. -/
structure Category where
  category_name : String
  stories : List Story
  deriving DecidableEq

/-- `DigestData` interface of `page.tsx`. -/
structure DigestData where
  digest_date : String
  categories : List Category
  total_stories : Int
  slack_posted : Bool
  deriving DecidableEq

/-- `DigestHistory` interface of `page.tsx`. -/
structure DigestHistory where
  id : String
  date : String
  data : DigestData
  timestamp : Nat
  deriving DecidableEq

/-- The `newItem` record built inside `saveToHistory`:
`{ id: Date.now().toString(), date: digestData.digest_date || new Date().toLocaleDateString(),
   data: digestData, timestamp: Date.now() }`.
`now` is the millisecond clock reading and `localeDate` the value of
`new Date().toLocaleDateString()`. -/
def mkHistoryEntry (now : Nat) (localeDate : String) (d : DigestData) : DigestHistory :=
  { id := Nat.repr now
    date := if d.digest_date = "" then localeDate else d.digest_date
    data := d
    timestamp := now }

/-- `saveToHistory` of `page.tsx`: `const updated = [newItem, ...history].slice(0, 20)`;
the same `updated` list is both stored via `setHistory` and persisted via
`localStorage.setItem`, so the function returns it. -/
def saveToHistory (now : Nat) (localeDate : String) (d : DigestData)
    (history : List DigestHistory) : List DigestHistory :=
  (mkHistoryEntry now localeDate d :: history).take 20

/-- The arguments of one `saveToHistory` call: the clock reading, the locale
date string and the digest being saved. -/
structure SaveCall where
  now : Nat
  localeDate : String
  digest : DigestData
  deriving DecidableEq

/-- The history entry a given call constructs. -/
def SaveCall.entry (c : SaveCall) : DigestHistory :=
  mkHistoryEntry c.now c.localeDate c.digest

/-- Sequential execution of `saveToHistory` calls, each call seeing the list
produced by the previous one. -/
def runSaves (calls : List SaveCall) (h0 : List DigestHistory) : List DigestHistory :=
  calls.foldl (fun h c => saveToHistory c.now c.localeDate c.digest h) h0

theorem take_append_take (a l : List DigestHistory) (n : Nat) :
    (a ++ l.take n).take n = (a ++ l).take n := by
  rw [List.take_append_eq_append_take, List.take_append_eq_append_take, List.take_take,
    Nat.min_eq_left (Nat.sub_le n a.length)]

theorem runSaves_eq (calls : List SaveCall) :
    ∀ h0 : List DigestHistory, h0.length ≤ 20 →
      runSaves calls h0 = (calls.reverse.map SaveCall.entry ++ h0).take 20 := by
  induction calls with
  | nil =>
    intro h0 hlen
    simpa [runSaves] using (List.take_of_length_le hlen).symm
  | cons c cs ih =>
    intro h0 hlen
    have hstep : runSaves (c :: cs) h0 = runSaves cs ((c.entry :: h0).take 20) := rfl
    rw [hstep, ih _ (List.length_take_le 20 _), take_append_take]
    simp [List.map_append, List.append_assoc]

/-- JavaScript `x || d` on an (optional) string: `undefined`, `null` and the
empty string are falsy, any other string is truthy. -/
def strOr (o : Option String) (d : String) : String :=
  match o with
  | none => d
  | some s => if s = "" then d else s

/-- The `categories` property of the object the agent returned, as inspected by
`Array.isArray(digestData.categories)`: it can be absent (`undefined`), present
but not an array, or an array. -/
inductive CategoriesField
  | undef
  | nonArray
  | arr (cats : List Category)
  deriving DecidableEq

/-- The `Array.isArray` test on a `categories` property. -/
def CategoriesField.isArray : CategoriesField → Bool
  | .arr _ => true
  | _ => false

/-- The object at `result.response.result`, before validation (the cast
`as DigestData` in `fetchNews` performs no check, so `categories` may have any
shape). `digest_date` is `""` when absent. -/
structure AgentPayload where
  digest_date : String
  categories : CategoriesField
  total_stories : Int
  slack_posted : Bool
  deriving DecidableEq

/-- Outcome of `await callAIAgent(...)` as observed by `fetchNews`: either the
promise resolved to a response object — `success` flag, the (possibly falsy)
`response?.result` chain, and the optional `error` string — or it rejected,
carrying `some msg` when the thrown value was an `Error` with message `msg`,
and `none` for any non-`Error` thrown value. -/
inductive AgentCall
  | ok (success : Bool) (result : Option AgentPayload) (error : Option String)
  | thrown (msg : Option String)
  deriving DecidableEq

/-- What one run of `fetchNews` does: the status message it sets, the payloads
it passes to `saveToHistory` (in call order) and the digest it sets. -/
structure FetchOutcome where
  statusMessage : String
  savedDigests : List AgentPayload
  digest : Option AgentPayload
  deriving DecidableEq

/-- The branching of `fetchNews` in `page.tsx`:
`if (result.success && result.response?.result)` then
`if (digestData && Array.isArray(digestData.categories))` save and report
success, else report `✗ Invalid response format`; the outer else reports
`✗ Failed to fetch news: ` + (`result.error || 'Unknown error'`); a rejected
promise reports `✗ Error: ` + (`error instanceof Error ? error.message :
'Unknown error'`). (`digestData` is truthy whenever the outer test passed.) -/
def fetchNews : AgentCall → FetchOutcome
  | .ok success result error =>
    match success, result with
    | true, some digestData =>
      if digestData.categories.isArray then
        { statusMessage := "✓ News digest fetched successfully"
          savedDigests := [digestData]
          digest := some digestData }
      else
        { statusMessage := "✗ Invalid response format"
          savedDigests := []
          digest := none }
    | true, none =>
      { statusMessage := "✗ Failed to fetch news: " ++ strOr error "Unknown error"
        savedDigests := []
        digest := none }
    | false, _ =>
      { statusMessage := "✗ Failed to fetch news: " ++ strOr error "Unknown error"
        savedDigests := []
        digest := none }
  | .thrown msg =>
      { statusMessage := "✗ Error: " ++ (match msg with | some m => m | none => "Unknown error")
        savedDigests := []
        digest := none }

/-- `formatNextRun` of `page.tsx`. The embedding is parametric in
* `parse`: the `new Date(isoString).getTime()` reading — `some t` for a
  parsable string (epoch milliseconds), `none` for a NaN time value; and
* `fmtAbs`: the `date.toLocaleString('en-US', options)` rendering of a valid
  instant, used by the `diffHours ≥ 24` branch.

The JS control flow is reproduced exactly:
* `if (!isoString)` is true for `undefined`/`null` and for `""`;
* when the time value is NaN, `diffMs`, `diffHours` and `diffMins` are all NaN,
  every `<` comparison is false, and the final branch evaluates
  `date.toLocaleString` on an Invalid Date, which by ECMA-402
  (`Date.prototype.toLocaleString` steps: if the time value is NaN, return
  `"Invalid Date"`) yields `"Invalid Date"` without throwing — the `catch`
  branch of the source is unreachable;
* otherwise `diffMs ≥ 0` holds past the `Past due` test, so `Math.floor` of the
  nonnegative quotients is integer division. -/
def formatNextRun (parse : String → Option Int) (fmtAbs : Int → String)
    (now : Int) (isoString : Option String) : String :=
  match isoString with
  | none => "Not scheduled"
  | some s =>
    if s = "" then "Not scheduled"
    else
      match parse s with
      | none => "Invalid Date"
      | some t =>
        let diffMs : Int := t - now
        if diffMs < 0 then "Past due"
        else
          let diffHours : Int := diffMs / 3600000
          let diffMins : Int := (diffMs % 3600000) / 60000
          if diffHours < 1 then
            "In " ++ toString diffMins ++ " minute" ++ (if diffMins ≠ 1 then "s" else "")
          else if diffHours < 24 then
            "In " ++ toString diffHours ++ " hour" ++ (if diffHours ≠ 1 then "s" else "")
          else fmtAbs t

/-- A parsed `categories` object from the settings JSON: each of the four keys
may be absent. -/
structure CatPrefsJson where
  breaking : Option Bool
  research : Option Bool
  trends : Option Bool
  startups : Option Bool
  deriving DecidableEq

/-- A parsed settings JSON object: every property may be absent. `categories`
is `some c` when the stored value has a truthy `categories` property (an
object), `none` when it is absent or falsy. -/
structure ParsedSettings where
  slackChannel : Option String
  deliveryTime : Option String
  timezone : Option String
  categories : Option CatPrefsJson
  deriving DecidableEq

/-- The settings as held by the component state after loading. The category
booleans stay optional because `setCategories(parsed.categories || categories)`
can install an object with missing keys. -/
structure LoadedSettings where
  slackChannel : String
  deliveryTime : String
  timezone : String
  categories : CatPrefsJson
  deriving DecidableEq

/-- The initial `categories` state of `SettingsModal`: all four flags true. -/
def defaultCatsJson : CatPrefsJson :=
  { breaking := some true, research := some true, trends := some true, startups := some true }

/-- The initial state of `SettingsModal`: the documented default record. -/
def defaultLoaded : LoadedSettings :=
  { slackChannel := ""
    deliveryTime := "10:00"
    timezone := "America/New_York"
    categories := defaultCatsJson }

/-- What `localStorage.getItem('ai-news-digest-settings')` followed by
`JSON.parse` can observe: no stored value, an unparsable value (the `catch`
ignores the error), or a parsed object. -/
inductive StoreContent
  | absent
  | corrupt
  | valid (p : ParsedSettings)
  deriving DecidableEq

/-- The settings-loading effect of `SettingsModal`: starting from the initial
state, when a parsed object exists each setter applies
`parsed.field || default`; `categories` falls back as a whole object
(`parsed.categories || categories`), not per key. An absent or unparsable
stored value leaves the initial state untouched. -/
def loadSettings (store : StoreContent) : LoadedSettings :=
  match store with
  | .absent => defaultLoaded
  | .corrupt => defaultLoaded
  | .valid p =>
    { slackChannel := strOr p.slackChannel ""
      deliveryTime := strOr p.deliveryTime "10:00"
      timezone := strOr p.timezone "America/New_York"
      categories := p.categories.getD defaultCatsJson }

/-- A well-formed settings record, as held by the modal state when every field
is populated: all four category booleans present. -/
structure Settings where
  slackChannel : String
  deliveryTime : String
  timezone : String
  breaking : Bool
  research : Bool
  trends : Bool
  startups : Bool
  deriving DecidableEq

/-- `handleSave` of `SettingsModal`: `JSON.stringify({ slackChannel,
deliveryTime, timezone, categories })` writes every property, so parsing the
stored string back yields an object with all fields present. -/
def serializeSettings (s : Settings) : ParsedSettings :=
  { slackChannel := some s.slackChannel
    deliveryTime := some s.deliveryTime
    timezone := some s.timezone
    categories := some
      { breaking := some s.breaking
        research := some s.research
        trends := some s.trends
        startups := some s.startups } }

/-- A well-formed settings record, seen as a loaded component state. -/
def Settings.toLoaded (s : Settings) : LoadedSettings :=
  { slackChannel := s.slackChannel
    deliveryTime := s.deliveryTime
    timezone := s.timezone
    categories :=
      { breaking := some s.breaking
        research := some s.research
        trends := some s.trends
        startups := some s.startups } }

/-- Well-formedness needed of a settings record: the spec types `deliveryTime`
as an `"HH:MM"` string and `timezone` as an IANA zone name, both of which are
non-empty; only non-emptiness is needed below. -/
def Settings.WellFormed (s : Settings) : Prop :=
  s.deliveryTime ≠ "" ∧ s.timezone ≠ ""

/-- Twelve-hour clock value of an hour field (0 ↦ 12, 13 ↦ 1, …). -/
def hour12 (h : Nat) : Nat :=
  if h % 12 = 0 then 12 else h % 12

/-- AM/PM suffix of an hour field. -/
def meridiem (h : Nat) : String :=
  if h < 12 then "AM" else "PM"

/-- Zero-padding of the minute field to two digits. -/
def pad2 (n : Nat) : String :=
  if n < 10 then "0" ++ Nat.repr n else Nat.repr n

/-- Splitting a character list on every single space, the semantics of the
JavaScript `split(' ')` (consecutive separators yield empty fields). -/
def splitOnSpace : List Char → List (List Char)
  | [] => [[]]
  | c :: rest =>
    let r := splitOnSpace rest
    if c = ' ' then [] :: r
    else
      match r with
      | [] => [[c]]
      | f :: fs => (c :: f) :: fs

/-- The numeric value of a decimal digit character, if it is one. -/
def charDigit (c : Char) : Option Nat :=
  if 48 ≤ c.toNat ∧ c.toNat ≤ 57 then some (c.toNat - 48) else none

/-- Accumulating decimal read of a character list; fails on any non-digit. -/
def digitsToNatAux : List Char → Nat → Option Nat
  | [], acc => some acc
  | c :: cs, acc =>
    match charDigit c with
    | some d => digitsToNatAux cs (10 * acc + d)
    | none => none

/-- A non-empty all-digit token read as a number; `none` otherwise. -/
def digitsToNat : List Char → Option Nat
  | [] => none
  | l => digitsToNatAux l 0

/-- Modelled from the spec: `cronToHuman` is imported from `@/lib/scheduler`,
a module of this repository that is not part of the provided source. Per
spec §4.1 it takes a 5-field space-separated cron expression (minute, hour,
day-of-month, month, day-of-week); it handles the fixed minute+hour,
wildcard day/month/weekday case, rendering the hour on a 12-hour clock with
an AM/PM suffix and the minute zero-padded to two digits; on any field-count
mismatch or unparseable token it yields `none` here. -/
def cronToHumanAux : List (List Char) → Option String
  | [minF, hourF, dayF, monthF, weekF] =>
    match digitsToNat minF, digitsToNat hourF with
    | some m, some h =>
      if dayF = ['*'] ∧ monthF = ['*'] ∧ weekF = ['*'] then
        some ("Daily at " ++ Nat.repr (hour12 h) ++ ":" ++ pad2 m ++ " " ++ meridiem h)
      else none
    | _, _ => none
  | _ => none

/-- Modelled from the spec: the total wrapper — split on spaces, humanize when
possible, and on any failure degrade gracefully by returning the original
expression unchanged (spec §4.1, §8). Totality (never throwing) is inherent in
the definition being a Lean function. -/
def cronToHuman (expr : String) : String :=
  (cronToHumanAux (splitOnSpace expr.data)).getD expr

/-- Decidable test for the inputs `cronToHuman` can humanize; its complement
is the set of expressions the spec calls unparseable. -/
def cronHumanizable (expr : String) : Bool :=
  (cronToHumanAux (splitOnSpace expr.data)).isSome

/-- Decimal value of a digit character produced by `Nat.digitChar`. -/
def decDigitVal (c : Char) : Nat := c.toNat - 48

/-- Value of a big-endian list of decimal digit characters. -/
def decValue (l : List Char) : Nat :=
  l.foldl (fun a c => 10 * a + decDigitVal c) 0

theorem decDigitVal_digitChar (m : Nat) (h : m < 10) :
    decDigitVal (Nat.digitChar m) = m := by
  interval_cases m <;> rfl

theorem toDigitsCore_eq_append (fuel : Nat) :
    ∀ (n : Nat) (ds : List Char),
      Nat.toDigitsCore 10 fuel n ds = Nat.toDigitsCore 10 fuel n [] ++ ds := by
  induction fuel with
  | zero => intro n ds; simp [Nat.toDigitsCore]
  | succ fuel ih =>
    intro n ds
    simp only [Nat.toDigitsCore]
    by_cases h : n / 10 = 0
    · simp [h]
    · rw [if_neg h, if_neg h, ih (n / 10) [Nat.digitChar (n % 10)],
        ih (n / 10) (Nat.digitChar (n % 10) :: ds), List.append_assoc]
      rfl

theorem decValue_toDigitsCore (fuel : Nat) :
    ∀ n : Nat, n < fuel → decValue (Nat.toDigitsCore 10 fuel n []) = n := by
  induction fuel with
  | zero => intro n h; exact absurd h (Nat.not_lt_zero n)
  | succ fuel ih =>
    intro n h
    simp only [Nat.toDigitsCore]
    by_cases h0 : n / 10 = 0
    · rw [if_pos h0]
      have hn : n < 10 := by omega
      have hm : n % 10 = n := Nat.mod_eq_of_lt hn
      simp [decValue, hm, decDigitVal_digitChar n hn]
    · rw [if_neg h0, toDigitsCore_eq_append]
      have hlt : n / 10 < fuel := by omega
      have hd : decDigitVal (Nat.digitChar (n % 10)) = n % 10 :=
        decDigitVal_digitChar _ (Nat.mod_lt n (by norm_num))
      simp [decValue, List.foldl_append] at ih ⊢
      rw [ih (n / 10) hlt, hd]
      omega

theorem nat_repr_injective (m n : Nat) (h : Nat.repr m = Nat.repr n) : m = n := by
  have hl : Nat.toDigits 10 m = Nat.toDigits 10 n := by
    have hdata := congrArg String.data h
    simpa [Nat.repr, List.asString] using hdata
  have hm := decValue_toDigitsCore (m + 1) m (Nat.lt_succ_self m)
  have hn := decValue_toDigitsCore (n + 1) n (Nat.lt_succ_self n)
  rw [show Nat.toDigitsCore 10 (m + 1) m [] = Nat.toDigits 10 m from rfl] at hm
  rw [show Nat.toDigitsCore 10 (n + 1) n [] = Nat.toDigits 10 n from rfl] at hn
  rw [← hm, ← hn, hl]

/-! ## Claim theorems -/

/-- Claim C1: for every sequence of successful `saveToHistory` calls starting
from an empty history, the persisted and returned list equals the 20 newest
entries in newest-first insertion order; hence it always has at most 20
entries, after 25 sequential calls exactly 20 entries remain (the tail beyond
20 silently dropped), and the most recent call's entry is always first. -/
theorem saveToHistory_cap_newest_first (calls : List SaveCall) :
    runSaves calls [] = (calls.reverse.map SaveCall.entry).take 20
    ∧ (runSaves calls []).length ≤ 20
    ∧ (calls.length = 25 → (runSaves calls []).length = 20)
    ∧ ∀ c : SaveCall, (runSaves (calls ++ [c]) []).head? = some c.entry := by
  have h := runSaves_eq calls [] (by simp)
  refine ⟨by simpa using h, ?_, ?_, ?_⟩
  · rw [h]
    exact List.length_take_le 20 _
  · intro h25
    rw [h]
    simp [List.length_take, h25]
  · intro c
    have h2 := runSaves_eq (calls ++ [c]) [] (by simp)
    rw [h2]
    simp [List.head?_take]

/-- A concrete digest record, used by witnesses. -/
def digestA : DigestData :=
  { digest_date := "2024-01-01", categories := [], total_stories := 0, slack_posted := false }

/-- A second concrete digest record, differing from `digestA`. -/
def digestB : DigestData :=
  { digest_date := "2024-01-02", categories := [], total_stories := 0, slack_posted := false }

/-- Twenty-five concrete `saveToHistory` calls. -/
def wCalls : List SaveCall :=
  (List.range 25).map (fun i => { now := i, localeDate := "1/1/2024", digest := digestA })

/-- Witness for C1: 25 concrete sequential calls leave exactly 20 entries. -/
theorem saveToHistory_cap_newest_first_witness : (runSaves wCalls []).length = 20 :=
  (saveToHistory_cap_newest_first wCalls).2.2.1 (by decide)

/-- Claim C3, evaluated at the failing inputs: the code returns `"Invalid
Date"` (the ECMA-402 rendering of an Invalid Date, reached because NaN fails
every `<` comparison and `toLocaleString` never throws) for a non-empty
unparsable string — not the sentinel `"Invalid date"` of the dead `catch`
branch — and returns `"Not scheduled"` for the empty string (falsy), which is
also unparsable. Null/absent input does give `"Not scheduled"`, and no
exception is propagated (the embedding is a total function). -/
theorem formatNextRun_unparsable_eval :
    formatNextRun (fun _ => none) (fun _ => "") 0 (some "not-a-date") = "Invalid Date"
    ∧ formatNextRun (fun _ => none) (fun _ => "") 0 (some "") = "Not scheduled"
    ∧ formatNextRun (fun _ => none) (fun _ => "") 0 none = "Not scheduled"
    ∧ "Invalid Date" ≠ "Invalid date" := by
  refine ⟨by decide, by decide, rfl, by decide⟩

/-- Claim C5: any parsable instant strictly before the current time renders as
`"Past due"`. -/
theorem formatNextRun_past_due (parse : String → Option Int) (fmtAbs : Int → String)
    (now t : Int) (s : String) (hs : s ≠ "") (hp : parse s = some t) (h : t < now) :
    formatNextRun parse fmtAbs now (some s) = "Past due" := by
  simp only [formatNextRun, hp, if_neg hs]
  rw [if_pos (by omega)]

/-- Witness for C5: one second in the past. -/
theorem formatNextRun_past_due_witness :
    formatNextRun (fun _ => some 999000) (fun _ => "") 1000000 (some "d") = "Past due" :=
  formatNextRun_past_due (fun _ => some 999000) (fun _ => "") 1000000 999000 "d"
    (by decide) rfl (by decide)

/-- Claim C4: for a parsable instant not before now, a difference below one
hour renders as `"In N minute(s)"` with `N` the floor of the remaining minutes
(singular exactly at `N = 1`), and a difference in `[1h, 24h)` renders as
`"In N hour(s)"` with `N` the floor of the remaining whole hours (the minute
remainder discarded), same pluralization. -/
theorem formatNextRun_minutes_hours (parse : String → Option Int) (fmtAbs : Int → String)
    (now t : Int) (s : String) (hs : s ≠ "") (hp : parse s = some t) (hle : now ≤ t) :
    (t - now < 3600000 →
      formatNextRun parse fmtAbs now (some s) =
        "In " ++ toString ((t - now) / 60000) ++ " minute" ++
          (if (t - now) / 60000 ≠ 1 then "s" else ""))
    ∧ (3600000 ≤ t - now → t - now < 24 * 3600000 →
      formatNextRun parse fmtAbs now (some s) =
        "In " ++ toString ((t - now) / 3600000) ++ " hour" ++
          (if (t - now) / 3600000 ≠ 1 then "s" else "")) := by
  constructor
  · intro hlt
    simp only [formatNextRun, hp, if_neg hs]
    rw [if_neg (by omega), if_pos (by omega),
      Int.emod_eq_of_lt (by omega) hlt]
  · intro h1 h2
    simp only [formatNextRun, hp, if_neg hs]
    rw [if_neg (by omega), if_neg (by omega), if_pos (by omega)]

/-- Witness for C4: thirty minutes out and five hours out. -/
theorem formatNextRun_minutes_hours_witness :
    formatNextRun (fun _ => some 1800000) (fun _ => "") 0 (some "d") = "In 30 minutes"
    ∧ formatNextRun (fun _ => some 18000000) (fun _ => "") 0 (some "d") = "In 5 hours" := by
  constructor
  · have h := (formatNextRun_minutes_hours (fun _ => some 1800000) (fun _ => "") 0 1800000 "d"
      (by decide) rfl (by decide)).1 (by decide)
    exact h.trans (by decide)
  · have h := (formatNextRun_minutes_hours (fun _ => some 18000000) (fun _ => "") 0 18000000 "d"
      (by decide) rfl (by decide)).2 (by decide) (by decide)
    exact h.trans (by decide)

/-- Claim C10: an instant exactly equal to the current time falls into the
minutes branch, with the plural zero form `"In 0 minutes"`. -/
theorem formatNextRun_zero_diff (parse : String → Option Int) (fmtAbs : Int → String)
    (now : Int) (s : String) (hs : s ≠ "") (hp : parse s = some now) :
    formatNextRun parse fmtAbs now (some s) = "In 0 minutes" := by
  simp only [formatNextRun, hp, if_neg hs]
  rw [if_neg (by omega), if_pos (by omega), show now - now = 0 by omega]
  decide

/-- Witness for C10. -/
theorem formatNextRun_zero_diff_witness :
    formatNextRun (fun _ => some 5000) (fun _ => "") 5000 (some "d") = "In 0 minutes" :=
  formatNextRun_zero_diff (fun _ => some 5000) (fun _ => "") 5000 "d" (by decide) rfl

/-- Claim C2, counterexample: a successful gateway response whose `result` is
absent or null — which certainly lacks an array-typed `categories` field —
produces the gateway-failure message, not the invalid-response-shape message
the claim requires for every categories-less success (no history entry either
way). -/
theorem fetchNews_shape_cex :
    (fetchNews (.ok true none none)).statusMessage = "✗ Failed to fetch news: Unknown error"
    ∧ (fetchNews (.ok true none none)).statusMessage ≠ "✗ Invalid response format"
    ∧ (fetchNews (.ok true none none)).savedDigests = [] := by
  refine ⟨rfl, by decide, rfl⟩

/-- The structural validation `fetchNews` performs before saving: success flag
set, `response?.result` truthy, and `Array.isArray(digestData.categories)`. -/
def validShape : AgentCall → Bool
  | .ok true (some p) _ => p.categories.isArray
  | _ => false

/-- Claim C2 (amended): `fetchNews` calls `saveToHistory` exactly once — with
the validated payload — when the gateway reports success with a present
(truthy) result whose `categories` field is an array, and zero times in every
other case. A successful response with a present result lacking an array-typed
`categories` yields the invalid-response-shape message; a successful response
with an absent/null result, like a non-success response, yields the
gateway-failure message; a thrown error yields the thrown-error message. -/
theorem fetchNews_amended (c : AgentCall) :
    ((fetchNews c).savedDigests.length = if validShape c then 1 else 0)
    ∧ (∀ p error, c = .ok true (some p) error → p.categories.isArray = true →
        (fetchNews c).savedDigests = [p]
          ∧ (fetchNews c).statusMessage = "✓ News digest fetched successfully")
    ∧ (∀ p error, c = .ok true (some p) error → p.categories.isArray = false →
        (fetchNews c).savedDigests = []
          ∧ (fetchNews c).statusMessage = "✗ Invalid response format")
    ∧ (∀ error, c = .ok true none error →
        (fetchNews c).savedDigests = []
          ∧ (fetchNews c).statusMessage =
              "✗ Failed to fetch news: " ++ strOr error "Unknown error")
    ∧ (∀ result error, c = .ok false result error →
        (fetchNews c).savedDigests = []
          ∧ (fetchNews c).statusMessage =
              "✗ Failed to fetch news: " ++ strOr error "Unknown error")
    ∧ (∀ msg, c = .thrown msg →
        (fetchNews c).savedDigests = []
          ∧ (fetchNews c).statusMessage =
              "✗ Error: " ++ (match msg with | some m => m | none => "Unknown error")) := by
  refine ⟨?_, ?_, ?_, ?_, ?_, ?_⟩
  · cases c with
    | ok success result error =>
      cases success with
      | false => cases result <;> simp [fetchNews, validShape]
      | true =>
        cases result with
        | none => simp [fetchNews, validShape]
        | some p => by_cases h : p.categories.isArray <;> simp [fetchNews, validShape, h]
    | thrown msg => simp [fetchNews, validShape]
  · intro p error h hval
    subst h
    simp [fetchNews, hval]
  · intro p error h hval
    subst h
    simp [fetchNews, hval]
  · intro error h
    subst h
    simp [fetchNews]
  · intro result error h
    subst h
    cases result <;> simp [fetchNews]
  · intro msg h
    subst h
    simp [fetchNews]

/-- A payload whose `categories` field is an array. -/
def payloadGood : AgentPayload :=
  { digest_date := "2024-01-01", categories := .arr [], total_stories := 0,
    slack_posted := false }

/-- Witness for C2 (amended): a shape-valid success is saved exactly once and
reports success. -/
theorem fetchNews_amended_witness :
    (fetchNews (.ok true (some payloadGood) none)).savedDigests = [payloadGood]
    ∧ (fetchNews (.ok true (some payloadGood) none)).statusMessage
        = "✓ News digest fetched successfully" :=
  (fetchNews_amended (.ok true (some payloadGood) none)).2.1 payloadGood none rfl (by decide)

/-- A stored settings record containing only `{slackChannel: x}`. -/
def onlySlack (x : String) : ParsedSettings :=
  { slackChannel := some x, deliveryTime := none, timezone := none, categories := none }

/-- A stored `categories` object that only sets `breaking`. -/
def cexStoredCats : CatPrefsJson :=
  { breaking := some false, research := none, trends := none, startups := none }

/-- A stored settings record whose only property is a partial `categories`
object. -/
def cexStored : ParsedSettings :=
  { slackChannel := none, deliveryTime := none, timezone := none,
    categories := some cexStoredCats }

/-- Claim C6, counterexample: for a stored record whose `categories` object
sets only `breaking`, the loaded `research` flag is absent — it does not fall
back to its individual default `true`, because `parsed.categories ||
categories` replaces the whole object. -/
theorem loadSettings_nested_cex :
    (loadSettings (.valid cexStored)).categories.research = none
    ∧ (loadSettings (.valid cexStored)).categories.research ≠ some true := by
  refine ⟨rfl, by decide⟩

/-- Claim C6 (amended): a missing or invalid store loads as exactly the default
record; each top-level field individually falls back to its default when
absent; a record containing only `{slackChannel:"X"}` loads as `"X"` merged
with all other defaults. The `categories` object, however, is taken or
replaced wholesale: when present it is installed as-is, without defaulting its
missing nested booleans. -/
theorem loadSettings_defaults :
    loadSettings .absent = defaultLoaded
    ∧ loadSettings .corrupt = defaultLoaded
    ∧ (∀ p : ParsedSettings, p.slackChannel = none →
        (loadSettings (.valid p)).slackChannel = "")
    ∧ (∀ p : ParsedSettings, p.deliveryTime = none →
        (loadSettings (.valid p)).deliveryTime = "10:00")
    ∧ (∀ p : ParsedSettings, p.timezone = none →
        (loadSettings (.valid p)).timezone = "America/New_York")
    ∧ (∀ p : ParsedSettings, p.categories = none →
        (loadSettings (.valid p)).categories = defaultCatsJson)
    ∧ (∀ p c, p.categories = some c → (loadSettings (.valid p)).categories = c)
    ∧ (∀ x : String, x ≠ "" →
        loadSettings (.valid (onlySlack x)) = { defaultLoaded with slackChannel := x }) := by
  refine ⟨rfl, rfl, ?_, ?_, ?_, ?_, ?_, ?_⟩
  · intro p h; simp [loadSettings, strOr, h]
  · intro p h; simp [loadSettings, strOr, h]
  · intro p h; simp [loadSettings, strOr, h]
  · intro p h; simp [loadSettings, h]
  · intro p c h; simp [loadSettings, h]
  · intro x hx
    simp [loadSettings, onlySlack, strOr, hx, defaultLoaded]

/-- Witness for C6 (amended): the spec's `{slackChannel:"X"}` merge example. -/
theorem loadSettings_defaults_witness :
    loadSettings (.valid (onlySlack "X")) = { defaultLoaded with slackChannel := "X" } :=
  loadSettings_defaults.2.2.2.2.2.2.2 "X" (by decide)

/-- Claim C7: saving a well-formed settings record and loading it back is the
identity — `handleSave` serializes every field, and each `parsed.field ||
default` read then returns the stored value (non-emptiness of `deliveryTime`
and `timezone` follows from their spec types `"HH:MM"` and IANA zone name). -/
theorem settings_roundtrip (s : Settings) (h : s.WellFormed) :
    loadSettings (.valid (serializeSettings s)) = s.toLoaded := by
  obtain ⟨h1, h2⟩ := h
  by_cases hc : s.slackChannel = "" <;>
    simp [loadSettings, serializeSettings, Settings.toLoaded, strOr, hc, h1, h2]

/-- A concrete well-formed settings record. -/
def wSettings : Settings :=
  { slackChannel := "C01234567890", deliveryTime := "10:00",
    timezone := "America/New_York", breaking := true, research := false,
    trends := true, startups := true }

/-- Witness for C7. -/
theorem settings_roundtrip_witness :
    loadSettings (.valid (serializeSettings wSettings)) = wSettings.toLoaded :=
  settings_roundtrip wSettings ⟨by decide, by decide⟩

/-- Claim C8: `cronToHuman` is total by construction (a Lean function returning
a `String` for every input), and on every input it cannot humanize as a
5-field cron expression it returns the original expression unchanged. -/
theorem cronToHuman_graceful (expr : String) (h : cronHumanizable expr = false) :
    cronToHuman expr = expr := by
  unfold cronToHuman
  unfold cronHumanizable at h
  cases hx : cronToHumanAux (splitOnSpace expr.data) with
  | none => rfl
  | some v => rw [hx] at h; simp at h

/-- Witness for C8: a malformed expression comes back unchanged. -/
theorem cronToHuman_graceful_witness : cronToHuman "not a cron" = "not a cron" :=
  cronToHuman_graceful "not a cron" (by decide)

/-- Claim C9, counterexample: two distinct entries created by `saveToHistory`
calls within the same millisecond receive the same id
(`Date.now().toString()`), so history ids are not unique. -/
theorem historyEntry_id_collision :
    mkHistoryEntry 1000 "1/1/2024" digestA ≠ mkHistoryEntry 1000 "1/1/2024" digestB
    ∧ (mkHistoryEntry 1000 "1/1/2024" digestA).id
        = (mkHistoryEntry 1000 "1/1/2024" digestB).id := by
  refine ⟨by decide, rfl⟩

/-- Claim C9 (amended): ids are exactly as unique as the millisecond clock —
entries created at distinct `Date.now()` readings always have distinct ids
(decimal representation of the timestamp is injective), while two calls within
the same millisecond collide. -/
theorem historyEntry_id_unique_of_ne_millis (t1 t2 : Nat) (L1 L2 : String)
    (d1 d2 : DigestData) (h : t1 ≠ t2) :
    (mkHistoryEntry t1 L1 d1).id ≠ (mkHistoryEntry t2 L2 d2).id := by
  simp only [mkHistoryEntry]
  intro he
  exact h (nat_repr_injective t1 t2 he)

/-- Witness for C9 (amended). -/
theorem historyEntry_id_unique_witness :
    (mkHistoryEntry 1000 "x" digestA).id ≠ (mkHistoryEntry 1001 "x" digestA).id :=
  historyEntry_id_unique_of_ne_millis 1000 1001 "x" "x" digestA digestA (by decide)

end NewsBot
